import Mathlib

/-!
Verification development for the Bank Australia → Actual CSV transaction
importer.

The definitions below are a shallow embedding of the repository's code:

* `src/bank_australia.ts` — the row classifier (`csvDataRowToTransactionAsync`
  and the five per-transaction-type parsers) together with its regular
  expressions, translated into executable functions over `List Char`;
* `src/actual.ts` — the ledger state (`ActualState`) and
  `createCategoryAsync`;
* `dist/utils.js` — `extractDate` (built on the date-fns `parse` function)
  and `toTitleCase`.

JavaScript strings are modelled as `String` / `List Char`; JavaScript's
`undefined` as `Option.none`; thrown exceptions as `Except.error`;
the mutable `Actual` object as explicit state passing.  Amounts are modelled
as exact scaled decimals instead of IEEE doubles (the claims under study
only distinguish zero from non-zero amounts, where the two agree).
-/

/-! ## Character classes (JavaScript regular-expression classes, ASCII) -/

/-- JS `\w`: ASCII letters, digits and underscore. -/
def isWordChar (c : Char) : Bool := c.isAlpha || c.isDigit || c == '_'

/-- JS `\s` (restricted to the whitespace characters that can appear in the
CSV fields): space, tab, newline, carriage return. -/
def isSpaceChar (c : Char) : Bool := c == ' ' || c == '\t' || c == '\n' || c == '\r'

/-- The character range `[A-z]` used (as written, including the characters
between `Z` and `a`) by the external-transfer regex. -/
def isAtoZ (c : Char) : Bool := decide ('A' ≤ c) && decide (c ≤ 'z')

/-- JS `.`: any character except line terminators. -/
def isDotChar (c : Char) : Bool := !(c == '\n' || c == '\r')

def digitVal (c : Char) : Nat := c.toNat - 48

/-! ## List-of-characters matching primitives -/

/-- `leads pat s` is true when `pat` is an initial segment of `s`
(JS `String.prototype.startsWith`). -/
def leads : List Char → List Char → Bool
  | [], _ => true
  | _ :: _, [] => false
  | p :: ps, c :: cs => p == c && leads ps cs

/-- `s.startsWith pat` on the `String` wrappers. -/
def strLeads (s pat : String) : Bool := leads pat.data s.data

/-- Consume the literal `pat` from the front of `s`, returning the rest. -/
def dropLeads : List Char → List Char → Option (List Char)
  | [], s => some s
  | _ :: _, [] => none
  | p :: ps, c :: cs => if p == c then dropLeads ps cs else none

/-- Case-insensitive variant of `dropLeads` (ASCII lower-casing), used for
month and weekday names in the date parser. -/
def dropLeadsCI : List Char → List Char → Option (List Char)
  | [], s => some s
  | _ :: _, [] => none
  | p :: ps, c :: cs => if p.toLower == c.toLower then dropLeadsCI ps cs else none

/-- Try a match function at every start position, left to right: the
leftmost-match rule of JS `RegExp.prototype.exec` / `String.prototype.match`. -/
def scanStarts (f : List Char → Option α) : List Char → Option α
  | [] => f []
  | c :: cs =>
    match f (c :: cs) with
    | some r => some r
    | none => scanStarts f cs

/-- Try `k n`, `k (n-1)`, …, `k 0`, returning the first success: the
backtracking order of a greedy quantifier. -/
def tryLensDown (k : Nat → Option α) : Nat → Option α
  | 0 => k 0
  | n + 1 =>
    match k (n + 1) with
    | some r => some r
    | none => tryLensDown k n

/-- Greedy `[class]{minLen,}` with backtracking: feeds the continuation `κ`
the matched run and the rest, longest run first. -/
def greedyClass (p : Char → Bool) (minLen : Nat) (s : List Char)
    (κ : List Char → List Char → Option α) : Option α :=
  tryLensDown
    (fun n => if minLen ≤ n then κ (s.take n) (s.drop n) else none)
    (s.takeWhile p).length

/-- Maximal run of decimal digits, at least one (`\d+` followed by a
deterministic continuation). -/
def takeDigits1 (s : List Char) : Option (List Char × List Char) :=
  let d := s.takeWhile Char.isDigit
  if d.isEmpty then none else some (d, s.drop d.length)

/-! ## The classifier's regular expressions

Each function is the translation of one regular expression from
`src/bank_australia.ts`; the original regex is quoted in the doc comment. -/

/-- `\w+` (maximal, at least one character) followed by the rest. -/
def takeWord1 (r : List Char) : Option (List Char × List Char) :=
  let w := r.takeWhile isWordChar
  if w.isEmpty then none else some (w, r.drop w.length)

/-- `/Transfer to \w+ ([0-9]+)/` — returns capture group 1. -/
def transferToExtract (s : List Char) : Option (List Char) :=
  scanStarts (fun l => do
    let r ← dropLeads "Transfer to ".data l
    let (_, r1) ← takeWord1 r
    match r1 with
    | ' ' :: r2 => (takeDigits1 r2).map (·.1)
    | _ => none) s

/-- `/Ext TFR - NET# (\d+) to \d+ ([A-z\s]+) (?:[A-Z]+) - .*/` — returns
(reference number, payee name). -/
def extTfrExtract (s : List Char) : Option (List Char × List Char) :=
  scanStarts (fun l => do
    let r ← dropLeads "Ext TFR - NET# ".data l
    let (g1, r1) ← takeDigits1 r
    let r2 ← dropLeads " to ".data r1
    let (_, r3) ← takeDigits1 r2
    match r3 with
    | ' ' :: r4 =>
      greedyClass (fun c => isAtoZ c || isSpaceChar c) 1 r4 (fun g2 r5 =>
        match r5 with
        | ' ' :: r6 =>
          greedyClass Char.isUpper 1 r6 (fun _ r7 => do
            let _ ← dropLeads " - ".data r7
            some (g1, g2))
        | _ => none)
    | _ => none) s

/-- `/Net tfr to \w+ (\d+)\. Rec No.: (\d+), .*/` — returns
(destination account number, reference number).  The unescaped `.` in
`No.:` matches any character. -/
def netTfrToExtract (s : List Char) : Option (List Char × List Char) :=
  scanStarts (fun l => do
    let r ← dropLeads "Net tfr to ".data l
    let w := r.takeWhile isWordChar
    if w.isEmpty then none else
    match r.drop w.length with
    | ' ' :: r2 => do
      let (g1, r3) ← takeDigits1 r2
      let r4 ← dropLeads ".".data r3
      let r5 ← dropLeads " Rec No".data r4
      match r5 with
      | _ :: r6 => do
        let r7 ← dropLeads ": ".data r6
        let (g2, r8) ← takeDigits1 r7
        let _ ← dropLeads ", ".data r8
        some (g1, g2)
      | [] => none
    | _ => none) s

/-- The suffix ` Ref#(\d+)` of the Osko-payment regex: given the already
captured payee name `g1` and the rest `r3`, return (payee, reference). -/
def oskoRefTail (g1 r3 : List Char) : Option (List Char × List Char) := do
  let r4 ← dropLeads " Ref#".data r3
  let (g2, _) ← takeDigits1 r4
  some (g1, g2)

/-- The alternation `(?:[\w@.]+|Account [\w\s-]+|[\+\d-]+)` of the
Osko-payment regex followed by ` Ref#(\d+)`, tried on `r2` with the
alternatives in source order. -/
def oskoToAlt (g1 r2 : List Char) : Option (List Char × List Char) :=
  match greedyClass (fun c => isWordChar c || c == '@' || c == '.') 1 r2
      (fun _ r3 => oskoRefTail g1 r3) with
  | some res => some res
  | none =>
    match (do
        let r3 ← dropLeads "Account ".data r2
        greedyClass (fun c => isWordChar c || isSpaceChar c || c == '-') 1 r3
          (fun _ r4 => oskoRefTail g1 r4)) with
    | some res => some res
    | none =>
      greedyClass (fun c => c == '+' || c.isDigit || c == '-') 1 r2
        (fun _ r3 => oskoRefTail g1 r3)

/-- `/Osko Payment To ([\w\s]+) (?:[\w@.]+|Account [\w\s-]+|[\+\d-]+) Ref#(\d+)/`
— returns (payee name, reference number). -/
def oskoToExtract (s : List Char) : Option (List Char × List Char) :=
  scanStarts (fun l => do
    let r ← dropLeads "Osko Payment To ".data l
    greedyClass (fun c => isWordChar c || isSpaceChar c) 1 r (fun g1 r1 =>
      match r1 with
      | ' ' :: r2 => oskoToAlt g1 r2
      | _ => none)) s

/-- `/Direct Debit ([\w\s]+) - .*/` — returns the payee name. -/
def directDebitExtract (s : List Char) : Option (List Char) :=
  scanStarts (fun l => do
    let r ← dropLeads "Direct Debit ".data l
    greedyClass (fun c => isWordChar c || isSpaceChar c) 1 r (fun g1 r1 => do
      let _ ← dropLeads " - ".data r1
      some g1)) s

/-- `/Osko Payment From ([\w\s]+)/` — returns the payee name. -/
def oskoFromExtract (s : List Char) : Option (List Char) :=
  scanStarts (fun l => do
    let r ← dropLeads "Osko Payment From ".data l
    let g1 := r.takeWhile (fun c => isWordChar c || isSpaceChar c)
    if g1.isEmpty then none else some g1) s

/-- `/Direct Credit (.+) - .*/` — returns the payee name. -/
def directCreditExtract (s : List Char) : Option (List Char) :=
  scanStarts (fun l => do
    let r ← dropLeads "Direct Credit ".data l
    greedyClass isDotChar 1 r (fun g1 r1 => do
      let _ ← dropLeads " - ".data r1
      some g1)) s

/-- `/Internet BPay to ([\w\s]+) - Biller Code (\d+) - Receipt No (\d+)/` —
returns (payee name, biller code, receipt number). -/
def bpayExtract (s : List Char) : Option (List Char × List Char × List Char) :=
  scanStarts (fun l => do
    let r ← dropLeads "Internet BPay to ".data l
    greedyClass (fun c => isWordChar c || isSpaceChar c) 1 r (fun g1 r1 => do
      let r2 ← dropLeads " - Biller Code ".data r1
      let (g2, r3) ← takeDigits1 r2
      let r4 ← dropLeads " - Receipt No ".data r3
      let (g3, _) ← takeDigits1 r4
      some (g1, g2, g3))) s

/-- The lazy part `(.*?)( HTTP| WWW|#)` of the VISA payee regex: walk right,
at each position first trying the terminator alternatives in order, and
otherwise consuming one (non-line-terminator) character. -/
def visaLazyLoop : List Char → List Char → Option (List Char)
  | _, [] => none
  | acc, c :: cs =>
    if leads " HTTP".data (c :: cs) then some acc.reverse
    else if leads " WWW".data (c :: cs) then some acc.reverse
    else if leads "#".data (c :: cs) then some acc.reverse
    else if isDotChar c then visaLazyLoop (c :: acc) cs
    else none

/-- `/VISA(?: Refund)?-(.*?)( HTTP| WWW|#)/` — returns capture group 1.
The optional ` Refund` is tried first (greedy option). -/
def visaPayeeExtract (s : List Char) : Option (List Char) :=
  scanStarts (fun l => do
    let r ← dropLeads "VISA".data l
    match (do
        let r1 ← dropLeads " Refund-".data r
        visaLazyLoop [] r1) with
    | some g => some g
    | none => do
      let r1 ← dropLeads "-".data r
      visaLazyLoop [] r1) s

/-- The lookahead `(?=\d|[A-Z][a-z])`. -/
def paypalLookahead (r : List Char) : Bool :=
  match r with
  | [] => false
  | c :: cs =>
    if c.isDigit then true
    else c.isUpper && (match cs with | d :: _ => d.isLower | [] => false)

/-- `/\*([\w]*[A-Z\. ]*)(?=\d|[A-Z][a-z])/` — returns capture group 1
(used when the merchant name is the PayPal or Square placeholder). -/
def paypalExtract (s : List Char) : Option (List Char) :=
  scanStarts (fun l => do
    let r ← dropLeads "*".data l
    greedyClass isWordChar 0 r (fun g1 r1 =>
      greedyClass (fun c => c.isUpper || c == '.' || c == ' ') 0 r1 (fun g2 r2 =>
        if paypalLookahead r2 then some (g1 ++ g2) else none))) s

/-- `/Ref\.(\d+)/` — returns the reference number. -/
def refNumExtract (s : List Char) : Option (List Char) :=
  scanStarts (fun l => do
    let r ← dropLeads "Ref.".data l
    (takeDigits1 r).map (·.1)) s

/-! ## `dist/utils.js` — `toTitleCase`, and JS `String.prototype.trim` -/

/-- State machine for `str.replace(/\w\S*/g, txt => txt.charAt(0).toUpperCase()
+ txt.substring(1).toLowerCase())`: a match starts at a `\w` character and
consumes the following `\S*` run; its first character is upper-cased and the
rest lower-cased.  The boolean is true while inside the `\S*` tail of a
match. -/
def titleGo : Bool → List Char → List Char
  | _, [] => []
  | true, c :: cs =>
    if isSpaceChar c then c :: titleGo false cs
    else c.toLower :: titleGo true cs
  | false, c :: cs =>
    if isSpaceChar c then c :: titleGo false cs
    else if isWordChar c then c.toUpper :: titleGo true cs
    else c :: titleGo false cs

/-- `toTitleCase` from `dist/utils.js`. -/
def toTitleCase (s : String) : String := ⟨titleGo false s.data⟩

/-- JS `String.prototype.trim` (restricted to the modelled whitespace). -/
def trimChars (s : List Char) : List Char :=
  ((s.dropWhile isSpaceChar).reverse.dropWhile isSpaceChar).reverse

def strTrim (s : String) : String := ⟨trimChars s.data⟩

/-! ## `dist/utils.js` — `extractDate`, modelled from the date-fns `parse`
semantics for the format string `h:mma EEE d MMMM, yyyy` -/

structure DateParts where
  year : Nat
  month : Nat
  day : Nat
  hour : Nat
  minute : Nat
deriving DecidableEq, Repr

/-- A JS `Date`: either the Invalid Date value (what date-fns `parse` returns
when the input does not match the format — it never throws) or a valid
point in time. -/
inductive JsDate where
  | invalid
  | valid (p : DateParts)
deriving DecidableEq, Repr

/-- Up to two leading decimal digits (the date-fns numeric tokens `h` and `d`
match one or two digits greedily). -/
def upTo2Digits : List Char → Option (Nat × List Char)
  | [] => none
  | [a] => if a.isDigit then some (digitVal a, []) else none
  | a :: b :: r =>
    if a.isDigit then
      if b.isDigit then some (digitVal a * 10 + digitVal b, r)
      else some (digitVal a, b :: r)
    else none

/-- Up to four leading decimal digits, at least one (the `yyyy` token). -/
def upTo4Digits (s : List Char) : Option (Nat × List Char) :=
  let d := (s.takeWhile Char.isDigit).take 4
  if d.isEmpty then none
  else some (d.foldl (fun a c => a * 10 + digitVal c) 0, s.drop d.length)

def monthNames : List (List Char) :=
  ["January".data, "February".data, "March".data, "April".data, "May".data,
   "June".data, "July".data, "August".data, "September".data, "October".data,
   "November".data, "December".data]

def weekdayNames : List (List Char) :=
  ["Sun".data, "Mon".data, "Tue".data, "Wed".data, "Thu".data, "Fri".data,
   "Sat".data]

/-- Match one name from `names` (case-insensitively) at the front of `r`,
returning its 1-based index and the rest. -/
def matchName : List (List Char) → Nat → List Char → Option (Nat × List Char)
  | [], _, _ => none
  | n :: ns, i, r =>
    match dropLeadsCI n r with
    | some r2 => some (i + 1, r2)
    | none => matchName ns (i + 1) r

/-- Parse a string against the format `h:mma EEE d MMMM, yyyy` (modelled from
the date-fns `parse` semantics: every format token must match and the whole
input must be consumed, otherwise the result is Invalid Date).  The weekday
name is matched but, as in date-fns for a fully specified date, does not
contribute to the result.  Calendar normalisation (day-of-month overflow)
is not modelled; no claim under study depends on the value of a valid date. -/
def parseBankDate (s : List Char) : Option DateParts := do
  let (h12, r1) ← upTo2Digits s
  if h12 < 1 || 12 < h12 then none else
  match r1 with
  | ':' :: m1 :: m2 :: r2 =>
    if !(m1.isDigit && m2.isDigit) then none else
    let minute := digitVal m1 * 10 + digitVal m2
    if 59 < minute then none else do
    let (isPM, r3) ←
      match dropLeadsCI "am".data r2 with
      | some r3 => some (false, r3)
      | none =>
        match dropLeadsCI "pm".data r2 with
        | some r3 => some (true, r3)
        | none => none
    let r4 ← dropLeads " ".data r3
    let (_, r5) ← matchName weekdayNames 0 r4
    let r6 ← dropLeads " ".data r5
    let (day, r7) ← upTo2Digits r6
    if day < 1 || 31 < day then none else do
    let r8 ← dropLeads " ".data r7
    let (month, r9) ← matchName monthNames 0 r8
    let r10 ← dropLeads ", ".data r9
    let (year, r11) ← upTo4Digits r10
    if !r11.isEmpty then none else
    let hour := if isPM then (if h12 = 12 then 12 else h12 + 12)
                else (if h12 = 12 then 0 else h12)
    some { year := year, month := month, day := day, hour := hour,
           minute := minute }
  | _ => none

/-- `extractDate` from `dist/utils.js`: parse with date-fns, then
`date.setHours(date.getHours() + 10)`.  On a parse failure date-fns returns
Invalid Date and `setHours` keeps it invalid, so the function always returns
a value.  The `+ 10` is recorded without 24-hour rollover (no claim reads
the value of a valid date). -/
def extractDate (s : String) : JsDate :=
  match parseBankDate s.data with
  | none => JsDate.invalid
  | some p => JsDate.valid { p with hour := p.hour + 10 }

/-! ## Amounts: JS `parseFloat` and `utils.amountToInteger` from
`@actual-app/api` (`Math.round(amount * 100)`), with `none` modelling NaN.
The parsed decimal is kept exactly as `num / 10 ^ scale` (for the bank's
amount strings this agrees with the IEEE double rounded through
`Math.round`); exponent notation, which never occurs in the bank's amount
columns, is not modelled. -/

def digitsToNat (l : List Char) : Nat := l.foldl (fun a c => a * 10 + digitVal c) 0

/-- An exact decimal number `num / 10 ^ scale`. -/
structure JsNumber where
  num : Int
  scale : Nat
deriving DecidableEq, Repr

/-- The body of `parseFloat` after the optional sign: `digits [. digits]`,
requiring at least one digit overall, parsing the longest valid numeric
prefix and ignoring anything after it. -/
def parseFloatBody (neg : Bool) (r : List Char) : Option JsNumber :=
  let ip := r.takeWhile Char.isDigit
  let r1 := r.drop ip.length
  match r1 with
  | '.' :: r2 =>
    let fp := r2.takeWhile Char.isDigit
    if ip.isEmpty && fp.isEmpty then none
    else
      let n : Nat := digitsToNat ip * 10 ^ fp.length + digitsToNat fp
      some ⟨if neg then -(n : Int) else (n : Int), fp.length⟩
  | _ =>
    if ip.isEmpty then none
    else some ⟨if neg then -(digitsToNat ip : Int) else (digitsToNat ip : Int), 0⟩

/-- JS `parseFloat`: skip leading whitespace, optional sign, then the numeric
prefix; `none` is NaN. -/
def jsParseFloat (s : String) : Option JsNumber :=
  match s.data.dropWhile isSpaceChar with
  | '-' :: r => parseFloatBody true r
  | '+' :: r => parseFloatBody false r
  | r => parseFloatBody false r

/-- Multiplication by 100 (exact on the decimal representation). -/
def jsMul100 (q : JsNumber) : JsNumber := ⟨q.num * 100, q.scale⟩

/-- `Math.round`: half-up, `⌊q + 1/2⌋`, computed on the exact decimal as
`(2·num + 10^scale) / (2·10^scale)` with integer division (Euclidean `/`,
which is floor division here since the divisor is positive). -/
def jsRound (q : JsNumber) : Int :=
  (2 * q.num + 10 ^ q.scale) / (2 * 10 ^ q.scale)

/-- `utils.amountToInteger` from `@actual-app/api`:
`Math.round(amount * 100)`; NaN propagates. -/
def amountToInteger (x : Option JsNumber) : Option Int :=
  x.map (fun q => jsRound (jsMul100 q))

/-- JS subtraction on possibly-NaN numbers (`credit - debit`). -/
def jsSub (a b : Option Int) : Option Int :=
  match a, b with
  | some x, some y => some (x - y)
  | _, _ => none

/-! ## Data model (`src/actual.ts` interfaces, `src/bank_australia.ts` row) -/

/-- One CSV record (`CSVDataRow` in `src/bank_australia.ts`).  The
transaction-type tag is kept as the raw string from the file, as in the
code, where an unrecognised tag reaches the `switch` default and throws. -/
structure CSVDataRow where
  accountNumber : String
  transactionType : String
  effectiveDate : String
  createDate : String := ""
  referenceNo : String := ""
  debitAmount : String
  creditAmount : String
  balanceAfterTransfer : String := ""
  description : String
  longDescription : String
  chequeNumber : String := ""
  merchantName : String
  categoryList : String
deriving DecidableEq, Repr

/-- `ICategory` (ids are opaque; `Nat` stands in for UUID strings). -/
structure ICategory where
  id : Option Nat
  name : String
  group_id : Nat
  is_income : Bool := false
deriving DecidableEq, Repr

/-- `IPayee`. -/
structure IPayee where
  id : Option Nat
  name : String
  transfer_acct : Option Nat := none
deriving DecidableEq, Repr

/-- `ITransaction`. -/
structure ITransaction where
  account : Nat
  date : JsDate
  amount : Option Int
  payee : Option Nat := none
  payee_name : Option String := none
  imported_payee : Option String := none
  category : Option Nat := none
  notes : Option String := none
  imported_id : Option String := none
  cleared : Option Bool := none
deriving DecidableEq, Repr

/-- The mutable fields of the `Actual` class that the classifier reads or
writes, plus a fresh-id counter standing in for the remote
`createCategory` call's returned id. -/
structure ActualState where
  categories : List ICategory
  payees : List IPayee
  defaultCategoryGroupId : Option Nat
  incomeCategoryGroupId : Option Nat
  isInitialised : Bool
  nextId : Nat
deriving DecidableEq, Repr

/-- The errors thrown by the embedded code, named after the spec's error
taxonomy; each `throw new Error(...)` site maps to one constructor. -/
inductive BAError where
  | accountNotFound (acct : String)
  | transferPayeeNotFound (acct : Nat)
  | parseError (longDescription : String)
  | unknownTransactionType (tag : String)
  | notInitialised
  | noDefaultCategoryGroup
  | noIncomeCategoryGroup
deriving DecidableEq, Repr

/-- Result of classifying one row: an error, or (candidate-or-suppression,
final ledger state, names of the categories created along the way). -/
abbrev RowResult := Except BAError (Option ITransaction × ActualState × List String)

/-! ## `src/actual.ts` — `createCategoryAsync` (string argument case) -/

/-- `createCategoryAsync` from `src/actual.ts`, for a string argument (the
only form the classifier uses): guard on initialisation and the two cached
group ids, then build the category — name `"Interest"` goes to the income
group, everything else to the default group — create it remotely (the fresh
id is `st.nextId`) and push it onto the cached list. -/
def createCategoryAsync (st : ActualState) (name : String) :
    Except BAError (ICategory × ActualState) :=
  if !st.isInitialised then .error .notInitialised
  else
    match st.defaultCategoryGroupId with
    | none => .error .noDefaultCategoryGroup
    | some d =>
      match st.incomeCategoryGroupId with
      | none => .error .noIncomeCategoryGroup
      | some i =>
        let cat : ICategory :=
          { id := some st.nextId, name := name,
            group_id := if name = "Interest" then i else d }
        .ok (cat, { st with categories := st.categories ++ [cat],
                            nextId := st.nextId + 1 })

/-! ## `src/bank_australia.ts` — the five per-type parsers -/

/-- `BankAustralia.PayeeName`. -/
def PayeeName : String := "Bank Australia"

/-- `BankAustralia.CategoryOverrides` as a lookup (JS object indexing:
`undefined` unless the key matches exactly). -/
def categoryOverrides (s : String) : Option String :=
  if s = "Liquor Store, Restricted" then some "Groceries" else none

/-- The `Map.get` of the constructor-supplied `_idMapping`. -/
def lookupAcct (m : List (String × Nat)) (k : String) : Option Nat :=
  (m.find? (fun kv => kv.1 == k)).map (·.2)

/-- The fixed narrative labels of the interest/fee branch. -/
def interestLabels : List String :=
  ["Interest Credit", "Credit Card Interest", "Cash Advance Fee"]

/-- `parseTransactionTypeAllAsync`.  The two inner `if/else if` chains fall
through to the shared trailing `return { ...transaction, cleared: false }`
exactly as in the source. -/
def parseTransactionTypeAllAsync (mapping : List (String × Nat))
    (st : ActualState) (row : CSVDataRow) (tx : ITransaction) : RowResult :=
  if row.description = "Internet Transfer" then
    if strLeads row.longDescription "Transfer to " then
      match transferToExtract row.longDescription.data with
      | none => .error (.parseError row.longDescription)
      | some acctChars =>
        let bankAccountNumber : String := ⟨acctChars⟩
        match lookupAcct mapping bankAccountNumber with
        | none => .error (.accountNotFound bankAccountNumber)
        | some actualAccountId =>
          match st.payees.find? (fun p => p.transfer_acct == some actualAccountId) with
          | none => .error (.transferPayeeNotFound actualAccountId)
          | some transferPayee =>
            .ok (some { tx with payee := transferPayee.id }, st, [])
    else if strLeads row.longDescription "Received from" then
      .ok (none, st, [])
    else
      .ok (some { tx with cleared := some false }, st, [])
  else if row.longDescription ∈ interestLabels then
    match st.categories.find? (fun c => c.name == "Interest") with
    | some category =>
      .ok (some { tx with payee_name := some PayeeName, category := category.id },
           st, [])
    | none =>
      match createCategoryAsync st "Interest" with
      | .error e => .error e
      | .ok (category, st2) =>
        .ok (some { tx with payee_name := some PayeeName, category := category.id },
             st2, ["Interest"])
  else if row.description = "Internet Ext Transfer" then
    match extTfrExtract row.longDescription.data with
    | none => .error (.parseError row.longDescription)
    | some (referenceNumber, payeeName) =>
      .ok (some { tx with payee_name := some ⟨payeeName⟩,
                          imported_id := some ⟨referenceNumber⟩ }, st, [])
  else if strLeads row.longDescription "Net tfr" then
    if strLeads row.longDescription "Net tfr to" then
      match netTfrToExtract row.longDescription.data with
      | none => .error (.parseError row.longDescription)
      | some (acctChars, refChars) =>
        let bankAccountNumber : String := ⟨acctChars⟩
        match lookupAcct mapping bankAccountNumber with
        | none => .error (.accountNotFound bankAccountNumber)
        | some actualAccountId =>
          match st.payees.find? (fun p => p.transfer_acct == some actualAccountId) with
          | none => .error (.transferPayeeNotFound actualAccountId)
          | some transferPayee =>
            .ok (some { tx with payee := transferPayee.id,
                                imported_id := some ⟨refChars⟩ }, st, [])
    else if strLeads row.longDescription "Net tfr received from" then
      .ok (none, st, [])
    else
      .ok (some { tx with cleared := some false }, st, [])
  else
    .ok (some { tx with cleared := some false }, st, [])

/-- `parseTransactionTypeAllWdls` (pure: no ledger access). -/
def parseTransactionTypeAllWdls (row : CSVDataRow) (tx : ITransaction) :
    Except BAError (Option ITransaction) :=
  if strLeads row.longDescription "Osko Payment To" then
    match oskoToExtract row.longDescription.data with
    | none => .error (.parseError row.longDescription)
    | some (payeeName, referenceNumber) =>
      .ok (some { tx with payee_name := some ⟨payeeName⟩,
                          imported_id := some ⟨referenceNumber⟩ })
  else if strLeads row.longDescription "Direct Debit" then
    match directDebitExtract row.longDescription.data with
    | none => .error (.parseError row.longDescription)
    | some payeeName => .ok (some { tx with payee_name := some ⟨payeeName⟩ })
  else
    .error (.parseError row.longDescription)

/-- `parseTransactionTypeAllDeposits` (pure). -/
def parseTransactionTypeAllDeposits (row : CSVDataRow) (tx : ITransaction) :
    Except BAError (Option ITransaction) :=
  if strLeads row.longDescription "Osko Payment From" then
    match oskoFromExtract row.longDescription.data with
    | none => .error (.parseError row.longDescription)
    | some payeeName => .ok (some { tx with payee_name := some ⟨payeeName⟩ })
  else if strLeads row.longDescription "Direct Credit" then
    match directCreditExtract row.longDescription.data with
    | none => .error (.parseError row.longDescription)
    | some payeeName => .ok (some { tx with payee_name := some ⟨payeeName⟩ })
  else if strLeads row.longDescription "SWIFT" then
    .ok (some { tx with payee_name := some row.description })
  else
    .error (.parseError row.longDescription)

/-- `parseTransactionTypeBPay` (pure). -/
def parseTransactionTypeBPay (row : CSVDataRow) (tx : ITransaction) :
    Except BAError (Option ITransaction) :=
  match bpayExtract row.longDescription.data with
  | none => .error (.parseError row.longDescription)
  | some (payeeName, billerCode, receiptNumber) =>
    .ok (some { tx with payee_name := some ⟨payeeName⟩,
                        imported_id := some (⟨billerCode⟩ ++ "-" ++ ⟨receiptNumber⟩) })

/-- The category name the VISA parser looks up and, if missing, creates:
`CategoryOverrides[categoryList] ?? categoryList.split(',').pop()?.trim()`
(the last comma-separated segment, trimmed; `split` never yields an empty
array, so the value is always a string). -/
def visaCategoryName (categoryList : String) : String :=
  match categoryOverrides categoryList with
  | some v => v
  | none => ⟨trimChars ((categoryList.data.reverse.takeWhile (fun c => !(c == ','))).reverse)⟩

/-- `parseTransactionTypeVisaAsync`: payee from the merchant name (text
before the first `(`, trimmed) unless it is empty or a PayPal/Square
placeholder, in which case extract from the narrative and title-case;
then resolve or create the category; then the optional `Ref.` number
(a miss is only a logged warning). -/
def parseTransactionTypeVisaAsync (st : ActualState) (row : CSVDataRow)
    (tx : ITransaction) : RowResult :=
  let category_name := visaCategoryName row.categoryList
  let merchantName := row.merchantName
  let payeeRes : Except BAError String :=
    if merchantName ≠ "" ∧ merchantName ≠ "PayPal" ∧ merchantName ≠ "Square" then
      .ok ⟨trimChars (row.merchantName.data.takeWhile (fun c => !(c == '(')))⟩
    else
      match (if merchantName = "PayPal" ∨ merchantName = "Square" then
               paypalExtract row.longDescription.data
             else
               visaPayeeExtract row.longDescription.data) with
      | none => .error (.parseError row.longDescription)
      | some g => .ok (strTrim (toTitleCase ⟨g⟩))
  match payeeRes with
  | .error e => .error e
  | .ok payee_name =>
    let catRes : Except BAError (Option ICategory × ActualState × List String) :=
      match st.categories.find? (fun c => c.name == category_name) with
      | some c => .ok (some c, st, [])
      | none =>
        if category_name ≠ "" then
          match createCategoryAsync st category_name with
          | .error e => .error e
          | .ok (c, st2) => .ok (some c, st2, [category_name])
        else .ok (none, st, [])
    match catRes with
    | .error e => .error e
    | .ok (category, st2, created) =>
      let imported_id : Option String :=
        (refNumExtract row.longDescription.data).map (fun g => (⟨g⟩ : String))
      .ok (some { tx with
                    payee_name := some payee_name,
                    category := match category with
                                | some c => c.id
                                | none => none,
                    imported_id := imported_id }, st2, created)

/-! ## `src/bank_australia.ts` — `csvDataRowToTransactionAsync` -/

/-- The base transaction object built before the per-type dispatch (the
object literal at the middle of `csvDataRowToTransactionAsync`). -/
def mkBaseTx (account : Nat) (row : CSVDataRow) : ITransaction :=
  { account := account,
    date := extractDate row.effectiveDate,
    amount := jsSub (amountToInteger (jsParseFloat row.creditAmount))
                    (amountToInteger (jsParseFloat row.debitAmount)),
    notes := some (row.longDescription ++ "|" ++ row.merchantName ++ "|" ++
                   row.categoryList),
    imported_payee := some row.longDescription,
    cleared := some true }

/-- Lift a pure parser result into `RowResult` with an unchanged state. -/
def liftPure (st : ActualState) : Except BAError (Option ITransaction) → RowResult
  | .error e => .error e
  | .ok o => .ok (o, st, [])

/-- `csvDataRowToTransactionAsync`: zero-amount pre-filter, notes and
imported-payee construction, account resolution, then dispatch on the
transaction-type tag (the `switch`, with the default case throwing). -/
def csvDataRowToTransactionAsync (mapping : List (String × Nat))
    (st : ActualState) (row : CSVDataRow) : RowResult :=
  let debit := amountToInteger (jsParseFloat row.debitAmount)
  let credit := amountToInteger (jsParseFloat row.creditAmount)
  if debit = some 0 ∧ credit = some 0 then
    .ok (none, st, [])
  else
    match lookupAcct mapping row.accountNumber with
    | none => .error (.accountNotFound row.accountNumber)
    | some account =>
      let tx := mkBaseTx account row
      if row.transactionType = "ALL" then
        parseTransactionTypeAllAsync mapping st row tx
      else if row.transactionType = "ALL WDLS" then
        liftPure st (parseTransactionTypeAllWdls row tx)
      else if row.transactionType = "ALL DEPOSITS" then
        liftPure st (parseTransactionTypeAllDeposits row tx)
      else if row.transactionType = "BPAY" then
        liftPure st (parseTransactionTypeBPay row tx)
      else if row.transactionType = "VISA" then
        parseTransactionTypeVisaAsync st row tx
      else
        .error (.unknownTransactionType row.transactionType)

/-! ## Projections on a classification result -/

/-- The produced candidate, when the row was classified successfully and not
suppressed. -/
def producedTx : RowResult → Option ITransaction
  | .ok (some t, _, _) => some t
  | _ => none

/-- True exactly when the row was suppressed: no candidate and no error. -/
def isSuppressed : RowResult → Bool
  | .ok (none, _, _) => true
  | _ => false

/-- The error, if classification failed. -/
def errOf : RowResult → Option BAError
  | .error e => some e
  | .ok _ => none

/-- The names of the categories created while classifying. -/
def createdNames : RowResult → List String
  | .ok (_, _, l) => l
  | .error _ => []

/-! ## Concrete fixtures used by witnesses and counterexamples -/

/-- A small account mapping: bank accounts `11111111 ↦ 1`, `22222222 ↦ 2`. -/
def m0 : List (String × Nat) := [("11111111", 1), ("22222222", 2)]

/-- The transfer payee bound to ledger account `2`. -/
def p0 : IPayee := { id := some 7, name := "Savings", transfer_acct := some 2 }

/-- An initialised ledger snapshot with one existing category. -/
def st0 : ActualState :=
  { categories := [{ id := some 3, name := "Rent", group_id := 5 }],
    payees := [p0], defaultCategoryGroupId := some 5,
    incomeCategoryGroupId := some 9, isInitialised := true, nextId := 100 }

/-- Row builder for fixtures (fields in the order of the structure). -/
def mkRow (ty de ld acct deb cred mer cat : String) : CSVDataRow :=
  { accountNumber := acct, transactionType := ty, effectiveDate := "x",
    debitAmount := deb, creditAmount := cred, description := de,
    longDescription := ld, merchantName := mer, categoryList := cat }

/-! ## Helper lemmas about `leads` -/

/-- Two patterns that agree on a common prefix and then differ cannot both
lead the same string. -/
theorem leads_common (com : List Char) (p q : Char) (ps qs s : List Char)
    (hpq : p ≠ q) (h : leads (com ++ p :: ps) s = true) :
    leads (com ++ q :: qs) s = false := by
  induction com generalizing s with
  | nil =>
    cases s with
    | nil => simp [leads] at h
    | cons c cs =>
      simp only [List.nil_append, leads, Bool.and_eq_true, beq_iff_eq] at h
      have hqc : (q == c) = false := by
        refine beq_eq_false_iff_ne.mpr ?_
        rw [← h.1]
        exact fun e => hpq e.symm
      simp [leads, hqc]
  | cons a as ih =>
    cases s with
    | nil => simp [leads] at h
    | cons c cs =>
      simp only [List.cons_append, leads, Bool.and_eq_true] at h
      simp [leads, List.cons_append, h.1, ih cs h.2]

/-- A pattern extension leads a string only if the pattern itself does. -/
theorem leads_append (p q s : List Char) (h : leads (p ++ q) s = true) :
    leads p s = true := by
  induction p generalizing s with
  | nil => rfl
  | cons a as ih =>
    cases s with
    | nil => simp [leads] at h
    | cons c cs =>
      simp only [List.cons_append, leads, Bool.and_eq_true] at h ⊢
      exact ⟨h.1, ih cs h.2⟩

/-! ## Frame lemmas: no classification branch touches the `notes` or
`imported_payee` fields of the base candidate -/

theorem frame_all (mapping : List (String × Nat)) (st : ActualState)
    (row : CSVDataRow) (tx t : ITransaction) (st2 : ActualState)
    (log : List String)
    (h : parseTransactionTypeAllAsync mapping st row tx = .ok (some t, st2, log)) :
    t.notes = tx.notes ∧ t.imported_payee = tx.imported_payee := by
  unfold parseTransactionTypeAllAsync at h
  dsimp only at h
  repeat' split at h
  all_goals (first
    | exact Except.noConfusion h
    | (injection h with h1; injection h1 with ha hb;
       first
         | exact Option.noConfusion ha
         | (injection ha with hX; cases hX; exact ⟨rfl, rfl⟩)))

theorem frame_wdls (row : CSVDataRow) (tx t : ITransaction)
    (h : parseTransactionTypeAllWdls row tx = .ok (some t)) :
    t.notes = tx.notes ∧ t.imported_payee = tx.imported_payee := by
  unfold parseTransactionTypeAllWdls at h
  repeat' split at h
  all_goals (first
    | exact Except.noConfusion h
    | (injection h with h1;
       first
         | exact Option.noConfusion h1
         | (injection h1 with hX; cases hX; exact ⟨rfl, rfl⟩)))

theorem frame_deposits (row : CSVDataRow) (tx t : ITransaction)
    (h : parseTransactionTypeAllDeposits row tx = .ok (some t)) :
    t.notes = tx.notes ∧ t.imported_payee = tx.imported_payee := by
  unfold parseTransactionTypeAllDeposits at h
  repeat' split at h
  all_goals (first
    | exact Except.noConfusion h
    | (injection h with h1;
       first
         | exact Option.noConfusion h1
         | (injection h1 with hX; cases hX; exact ⟨rfl, rfl⟩)))

theorem frame_bpay (row : CSVDataRow) (tx t : ITransaction)
    (h : parseTransactionTypeBPay row tx = .ok (some t)) :
    t.notes = tx.notes ∧ t.imported_payee = tx.imported_payee := by
  unfold parseTransactionTypeBPay at h
  repeat' split at h
  all_goals (first
    | exact Except.noConfusion h
    | (injection h with h1;
       first
         | exact Option.noConfusion h1
         | (injection h1 with hX; cases hX; exact ⟨rfl, rfl⟩)))

theorem frame_visa (st : ActualState) (row : CSVDataRow) (tx t : ITransaction)
    (st2 : ActualState) (log : List String)
    (h : parseTransactionTypeVisaAsync st row tx = .ok (some t, st2, log)) :
    t.notes = tx.notes ∧ t.imported_payee = tx.imported_payee := by
  unfold parseTransactionTypeVisaAsync at h
  dsimp only at h
  repeat' split at h
  all_goals (first
    | exact Except.noConfusion h
    | (injection h with h1; injection h1 with ha hb;
       first
         | exact Option.noConfusion ha
         | (injection ha with hX; cases hX; exact ⟨rfl, rfl⟩)))

theorem liftPure_ok (st : ActualState) (r : Except BAError (Option ITransaction))
    (o : Option ITransaction) (st2 : ActualState) (log : List String)
    (h : liftPure st r = .ok (o, st2, log)) : r = .ok o := by
  unfold liftPure at h
  split at h
  · exact Except.noConfusion h
  · injection h with h1
    injection h1 with ha hb
    cases ha
    rfl

/-! ## Reduction helpers for the corrected/confirmed claims about the
`ALL` branch -/

/-- With a non-zero amount and a mapped row account, classification of an
`ALL`-tagged row is its `parseTransactionTypeAllAsync` call on the base
candidate. -/
theorem classify_all_reduces (mapping : List (String × Nat)) (st : ActualState)
    (row : CSVDataRow) (a : Nat)
    (hnz : ¬(amountToInteger (jsParseFloat row.debitAmount) = some 0 ∧
             amountToInteger (jsParseFloat row.creditAmount) = some 0))
    (hacc : lookupAcct mapping row.accountNumber = some a)
    (htype : row.transactionType = "ALL") :
    csvDataRowToTransactionAsync mapping st row =
      parseTransactionTypeAllAsync mapping st row (mkBaseTx a row) := by
  unfold csvDataRowToTransactionAsync
  rw [if_neg hnz, hacc, htype]
  simp

/-- The `Internet Transfer` / `Transfer to ` branch of the `ALL` parser,
reduced to its destination-account lookup. -/
theorem all_transfer_branch (mapping : List (String × Nat)) (st : ActualState)
    (row : CSVDataRow) (tx : ITransaction) (dest : List Char)
    (hdesc : row.description = "Internet Transfer")
    (hstart : strLeads row.longDescription "Transfer to " = true)
    (hext : transferToExtract row.longDescription.data = some dest) :
    parseTransactionTypeAllAsync mapping st row tx =
      (match lookupAcct mapping ⟨dest⟩ with
       | none => .error (.accountNotFound ⟨dest⟩)
       | some actualAccountId =>
         match st.payees.find? (fun p => p.transfer_acct == some actualAccountId) with
         | none => .error (.transferPayeeNotFound actualAccountId)
         | some transferPayee => .ok (some { tx with payee := transferPayee.id }, st, [])) := by
  unfold parseTransactionTypeAllAsync
  rw [hdesc, hstart, hext]
  simp

/-- The `Net tfr to` branch of the `ALL` parser, reduced to its
destination-account lookup. -/
theorem all_net_tfr_branch (mapping : List (String × Nat)) (st : ActualState)
    (row : CSVDataRow) (tx : ITransaction) (dest ref : List Char)
    (hd1 : row.description ≠ "Internet Transfer")
    (hd2 : row.description ≠ "Internet Ext Transfer")
    (hstart : strLeads row.longDescription "Net tfr to" = true)
    (hext : netTfrToExtract row.longDescription.data = some (dest, ref)) :
    parseTransactionTypeAllAsync mapping st row tx =
      (match lookupAcct mapping ⟨dest⟩ with
       | none => .error (.accountNotFound ⟨dest⟩)
       | some actualAccountId =>
         match st.payees.find? (fun p => p.transfer_acct == some actualAccountId) with
         | none => .error (.transferPayeeNotFound actualAccountId)
         | some transferPayee =>
           .ok (some { tx with payee := transferPayee.id,
                               imported_id := some ⟨ref⟩ }, st, [])) := by
  have hmem : row.longDescription ∉ interestLabels := by
    intro hmem
    have hstart2 := hstart
    simp only [interestLabels, List.mem_cons] at hmem
    rcases hmem with h | h | h | h
    · rw [h] at hstart2; exact absurd hstart2 (by decide)
    · rw [h] at hstart2; exact absurd hstart2 (by decide)
    · rw [h] at hstart2; exact absurd hstart2 (by decide)
    · simp at h
  have hnet : strLeads row.longDescription "Net tfr" = true :=
    leads_append "Net tfr".data " to".data row.longDescription.data hstart
  unfold parseTransactionTypeAllAsync
  rw [if_neg hd1, if_neg hmem, if_neg hd2, hnet, hstart, hext]
  simp

/-- The `Internet Transfer` / `Received from` branch of the `ALL` parser
suppresses the row. -/
theorem all_received_branch (mapping : List (String × Nat)) (st : ActualState)
    (row : CSVDataRow) (tx : ITransaction)
    (hdesc : row.description = "Internet Transfer")
    (hrecv : strLeads row.longDescription "Received from" = true) :
    parseTransactionTypeAllAsync mapping st row tx = .ok (none, st, []) := by
  have h1 : leads ('R' :: "eceived from".data) row.longDescription.data = true := hrecv
  have hTF : strLeads row.longDescription "Transfer to " = false :=
    leads_common [] 'R' 'T' "eceived from".data "ransfer to ".data
      row.longDescription.data (by decide) h1
  unfold parseTransactionTypeAllAsync
  rw [hdesc, hTF, hrecv]
  simp

/-- The `Net tfr received from` branch of the `ALL` parser suppresses the
row. -/
theorem all_net_received_branch (mapping : List (String × Nat)) (st : ActualState)
    (row : CSVDataRow) (tx : ITransaction)
    (hd1 : row.description ≠ "Internet Transfer")
    (hd2 : row.description ≠ "Internet Ext Transfer")
    (hnet : strLeads row.longDescription "Net tfr received from" = true) :
    parseTransactionTypeAllAsync mapping st row tx = .ok (none, st, []) := by
  have hmem : row.longDescription ∉ interestLabels := by
    intro hmem
    have hnet2 := hnet
    simp only [interestLabels, List.mem_cons] at hmem
    rcases hmem with h | h | h | h
    · rw [h] at hnet2; exact absurd hnet2 (by decide)
    · rw [h] at hnet2; exact absurd hnet2 (by decide)
    · rw [h] at hnet2; exact absurd hnet2 (by decide)
    · simp at h
  have h7 : strLeads row.longDescription "Net tfr" = true :=
    leads_append "Net tfr".data " received from".data row.longDescription.data hnet
  have hTo : strLeads row.longDescription "Net tfr to" = false :=
    leads_common "Net tfr ".data 'r' 't' "eceived from".data "o".data
      row.longDescription.data (by decide) hnet
  unfold parseTransactionTypeAllAsync
  rw [if_neg hd1, if_neg hmem, if_neg hd2, h7, hTo, hnet]
  simp

/-! ## Claim theorems -/

/-- C1 (amended).  For an `ALL` row whose *short description is
`Internet Transfer`* and whose narrative starts with `Transfer to ` and
yields a destination account number mapped to a ledger account with an
existing transfer payee, and which passes the zero-amount pre-filter and has
a mapped row account, the candidate's payee is the transfer payee's id, its
category is unset and its cleared flag is true.  (The claim as frozen omits
the short-description condition; see the counterexample.) -/
theorem c1_transfer_to_payee (mapping : List (String × Nat)) (st : ActualState)
    (row : CSVDataRow) (a destId : Nat) (dest : List Char) (tp : IPayee)
    (hnz : ¬(amountToInteger (jsParseFloat row.debitAmount) = some 0 ∧
             amountToInteger (jsParseFloat row.creditAmount) = some 0))
    (hacc : lookupAcct mapping row.accountNumber = some a)
    (htype : row.transactionType = "ALL")
    (hdesc : row.description = "Internet Transfer")
    (hstart : strLeads row.longDescription "Transfer to " = true)
    (hext : transferToExtract row.longDescription.data = some dest)
    (hdest : lookupAcct mapping ⟨dest⟩ = some destId)
    (hpayee : st.payees.find? (fun p => p.transfer_acct == some destId) = some tp) :
    (producedTx (csvDataRowToTransactionAsync mapping st row)).map (fun u => u.payee)
        = some tp.id ∧
    (producedTx (csvDataRowToTransactionAsync mapping st row)).map (fun u => u.category)
        = some none ∧
    (producedTx (csvDataRowToTransactionAsync mapping st row)).map (fun u => u.cleared)
        = some (some true) := by
  have e : csvDataRowToTransactionAsync mapping st row =
      .ok (some { mkBaseTx a row with payee := tp.id }, st, []) := by
    rw [classify_all_reduces mapping st row a hnz hacc htype,
        all_transfer_branch mapping st row (mkBaseTx a row) dest hdesc hstart hext,
        hdest]
    simp [hpayee]
  rw [e]
  exact ⟨rfl, rfl, rfl⟩

/-- C1 witness: the amended theorem applied to a concrete transfer row. -/
theorem c1_transfer_to_payee_witness :
    (producedTx (csvDataRowToTransactionAsync m0 st0
        (mkRow "ALL" "Internet Transfer" "Transfer to SAV 22222222"
          "11111111" "10.00" "0.0" "" ""))).map (fun u => u.payee) = some p0.id ∧
    (producedTx (csvDataRowToTransactionAsync m0 st0
        (mkRow "ALL" "Internet Transfer" "Transfer to SAV 22222222"
          "11111111" "10.00" "0.0" "" ""))).map (fun u => u.category) = some none ∧
    (producedTx (csvDataRowToTransactionAsync m0 st0
        (mkRow "ALL" "Internet Transfer" "Transfer to SAV 22222222"
          "11111111" "10.00" "0.0" "" ""))).map (fun u => u.cleared) = some (some true) :=
  c1_transfer_to_payee m0 st0
    (mkRow "ALL" "Internet Transfer" "Transfer to SAV 22222222"
      "11111111" "10.00" "0.0" "" "")
    1 2 "22222222".data p0 (by decide) rfl rfl rfl rfl rfl rfl rfl

/-- The row refuting C1 as frozen: all of the claim's stated conditions hold
(type `ALL`, narrative starts with `Transfer to`, destination mapped,
transfer payee present) but the short description is not
`Internet Transfer`. -/
def c1badrow : CSVDataRow :=
  mkRow "ALL" "Pay Anyone" "Transfer to SAV 22222222" "11111111" "10.00" "0.0" "" ""

/-- C1 counterexample: on `c1badrow` every condition of the frozen claim
holds, yet the produced candidate's payee is unset and it is marked
uncleared (the code only treats `Transfer to` narratives as transfers when
the short description is exactly `Internet Transfer`). -/
theorem c1_counterexample :
    c1badrow.transactionType = "ALL" ∧
    strLeads c1badrow.longDescription "Transfer to " = true ∧
    transferToExtract c1badrow.longDescription.data = some "22222222".data ∧
    lookupAcct m0 "22222222" = some 2 ∧
    st0.payees.find? (fun p => p.transfer_acct == some 2) = some p0 ∧
    (producedTx (csvDataRowToTransactionAsync m0 st0 c1badrow)).map (fun u => u.payee)
        = some none ∧
    (producedTx (csvDataRowToTransactionAsync m0 st0 c1badrow)).map (fun u => u.cleared)
        = some (some false) :=
  ⟨rfl, rfl, rfl, rfl, rfl, rfl, rfl⟩

/-- C2 (amended).  An `ALL` row with a mapped account is suppressed (no
candidate, no error) when either its short description is
`Internet Transfer` and its narrative starts with `Received from`, or its
short description is neither `Internet Transfer` nor `Internet Ext Transfer`
and its narrative starts with `Net tfr received from`.  (The claim as
frozen omits the short-description conditions; see the counterexample.) -/
theorem c2_received_suppressed (mapping : List (String × Nat)) (st : ActualState)
    (row : CSVDataRow) (a : Nat)
    (hacc : lookupAcct mapping row.accountNumber = some a)
    (htype : row.transactionType = "ALL")
    (hcase : (row.description = "Internet Transfer" ∧
              strLeads row.longDescription "Received from" = true) ∨
             (row.description ≠ "Internet Transfer" ∧
              row.description ≠ "Internet Ext Transfer" ∧
              strLeads row.longDescription "Net tfr received from" = true)) :
    isSuppressed (csvDataRowToTransactionAsync mapping st row) = true := by
  by_cases hz : amountToInteger (jsParseFloat row.debitAmount) = some 0 ∧
      amountToInteger (jsParseFloat row.creditAmount) = some 0
  · unfold csvDataRowToTransactionAsync
    rw [if_pos hz]
    rfl
  · rw [classify_all_reduces mapping st row a hz hacc htype]
    rcases hcase with ⟨hdesc, hrecv⟩ | ⟨hd1, hd2, hnet⟩
    · rw [all_received_branch mapping st row (mkBaseTx a row) hdesc hrecv]
      rfl
    · rw [all_net_received_branch mapping st row (mkBaseTx a row) hd1 hd2 hnet]
      rfl

/-- C2 witness: the amended theorem applied to concrete rows of both
suppressed shapes. -/
theorem c2_received_suppressed_witness :
    isSuppressed (csvDataRowToTransactionAsync m0 st0
      (mkRow "ALL" "Internet Transfer" "Received from John"
        "11111111" "10.00" "0.0" "" "")) = true ∧
    isSuppressed (csvDataRowToTransactionAsync m0 st0
      (mkRow "ALL" "Transfer" "Net tfr received from SAV 5555555"
        "11111111" "0.0" "10.00" "" "")) = true :=
  ⟨c2_received_suppressed m0 st0
      (mkRow "ALL" "Internet Transfer" "Received from John"
        "11111111" "10.00" "0.0" "" "") 1 rfl rfl (Or.inl ⟨rfl, rfl⟩),
   c2_received_suppressed m0 st0
      (mkRow "ALL" "Transfer" "Net tfr received from SAV 5555555"
        "11111111" "0.0" "10.00" "" "") 1 rfl rfl
      (Or.inr ⟨by decide, by decide, rfl⟩)⟩

/-- A `Received from` narrative whose short description is not
`Internet Transfer`: refutes the frozen C2. -/
def c2badrow : CSVDataRow :=
  mkRow "ALL" "" "Received from John" "11111111" "10.00" "0.0" "" ""

/-- A `Net tfr received from` narrative whose short description *is*
`Internet Transfer`: also refutes the frozen C2. -/
def c2badrow2 : CSVDataRow :=
  mkRow "ALL" "Internet Transfer" "Net tfr received from SAV 5555555"
    "11111111" "10.00" "0.0" "" ""

/-- C2 counterexample: both rows have narratives starting with
`Received from` / `Net tfr received from`, yet neither is suppressed — each
produces an (uncleared) candidate, because the suppression branches are
guarded by the short-description checks. -/
theorem c2_counterexample :
    strLeads c2badrow.longDescription "Received from" = true ∧
    (producedTx (csvDataRowToTransactionAsync m0 st0 c2badrow)).isSome = true ∧
    isSuppressed (csvDataRowToTransactionAsync m0 st0 c2badrow) = false ∧
    strLeads c2badrow2.longDescription "Net tfr received from" = true ∧
    (producedTx (csvDataRowToTransactionAsync m0 st0 c2badrow2)).isSome = true ∧
    isSuppressed (csvDataRowToTransactionAsync m0 st0 c2badrow2) = false :=
  ⟨rfl, rfl, rfl, rfl, rfl, rfl⟩

/-- C3.  A row whose debit and credit amounts both parse to zero is
suppressed — no candidate, no error, unchanged ledger state — before the
transaction-type dispatch, so the type tag (even an unknown one) and the
account mapping are irrelevant. -/
theorem c3_zero_amounts_suppressed (mapping : List (String × Nat))
    (st : ActualState) (row : CSVDataRow)
    (sd sc : Nat)
    (hd : jsParseFloat row.debitAmount = some ⟨0, sd⟩)
    (hc : jsParseFloat row.creditAmount = some ⟨0, sc⟩) :
    csvDataRowToTransactionAsync mapping st row = .ok (none, st, []) := by
  have h0 : ∀ s : Nat, amountToInteger (some ⟨0, s⟩) = some 0 := by
    intro s
    have hpos : (0 : Int) < 10 ^ s := by positivity
    unfold amountToInteger jsMul100 jsRound
    simp only [Option.map]
    norm_num
    exact Int.ediv_eq_zero_of_lt (by positivity) (by linarith)
  unfold csvDataRowToTransactionAsync
  rw [hd, hc, h0, h0]
  simp

/-- C3 witness: a zero-amount row with an unknown type tag and an unmapped
account number is still suppressed. -/
theorem c3_zero_amounts_suppressed_witness :
    csvDataRowToTransactionAsync m0 st0
      (mkRow "MYSTERY" "x" "y" "99999999" "0.0" "0.0" "" "") = .ok (none, st0, []) :=
  c3_zero_amounts_suppressed m0 st0
    (mkRow "MYSTERY" "x" "y" "99999999" "0.0" "0.0" "" "") 1 1 (by decide) (by decide)

/-- C4 (amended).  For a row that passes the zero-amount pre-filter: an
unmapped row account aborts classification with the account-not-found
error, and for the two recognised intra-bank transfer shapes of the `ALL`
type an unmapped extracted destination account also aborts with the
account-not-found error.  (The claim as frozen also covers rows suppressed
by the zero-amount pre-filter, where the code silently skips instead; see
the counterexample.) -/
theorem c4_unmapped_account_aborts (mapping : List (String × Nat))
    (st : ActualState) (row : CSVDataRow) (a : Nat) (dest ref : List Char)
    (hnz : ¬(amountToInteger (jsParseFloat row.debitAmount) = some 0 ∧
             amountToInteger (jsParseFloat row.creditAmount) = some 0)) :
    (lookupAcct mapping row.accountNumber = none →
      csvDataRowToTransactionAsync mapping st row =
        .error (.accountNotFound row.accountNumber)) ∧
    (row.transactionType = "ALL" → row.description = "Internet Transfer" →
      lookupAcct mapping row.accountNumber = some a →
      strLeads row.longDescription "Transfer to " = true →
      transferToExtract row.longDescription.data = some dest →
      lookupAcct mapping ⟨dest⟩ = none →
      csvDataRowToTransactionAsync mapping st row =
        .error (.accountNotFound ⟨dest⟩)) ∧
    (row.transactionType = "ALL" → row.description ≠ "Internet Transfer" →
      row.description ≠ "Internet Ext Transfer" →
      lookupAcct mapping row.accountNumber = some a →
      strLeads row.longDescription "Net tfr to" = true →
      netTfrToExtract row.longDescription.data = some (dest, ref) →
      lookupAcct mapping ⟨dest⟩ = none →
      csvDataRowToTransactionAsync mapping st row =
        .error (.accountNotFound ⟨dest⟩)) := by
  refine ⟨?_, ?_, ?_⟩
  · intro hnone
    unfold csvDataRowToTransactionAsync
    rw [if_neg hnz, hnone]
  · intro htype hdesc hacc hstart hext hdnone
    rw [classify_all_reduces mapping st row a hnz hacc htype,
        all_transfer_branch mapping st row (mkBaseTx a row) dest hdesc hstart hext,
        hdnone]
  · intro htype hd1 hd2 hacc hstart hext hdnone
    rw [classify_all_reduces mapping st row a hnz hacc htype,
        all_net_tfr_branch mapping st row (mkBaseTx a row) dest ref hd1 hd2 hstart hext,
        hdnone]

/-- C4 witness: the amended theorem applied to concrete rows — an unmapped
row account, and a mapped row whose transfer destination is unmapped. -/
theorem c4_unmapped_account_aborts_witness :
    csvDataRowToTransactionAsync m0 st0
        (mkRow "ALL" "x" "y" "99999999" "5.00" "0.0" "" "") =
      .error (.accountNotFound "99999999") ∧
    csvDataRowToTransactionAsync m0 st0
        (mkRow "ALL" "Internet Transfer" "Transfer to SAV 33333333"
          "11111111" "5.00" "0.0" "" "") =
      .error (.accountNotFound ⟨"33333333".data⟩) :=
  ⟨(c4_unmapped_account_aborts m0 st0
      (mkRow "ALL" "x" "y" "99999999" "5.00" "0.0" "" "") 0 [] []
      (by decide)).1 rfl,
   (c4_unmapped_account_aborts m0 st0
      (mkRow "ALL" "Internet Transfer" "Transfer to SAV 33333333"
        "11111111" "5.00" "0.0" "" "") 1 "33333333".data []
      (by decide)).2.1 rfl rfl rfl rfl rfl rfl⟩

/-- A zero-amount row whose account number is absent from the mapping. -/
def c4zrow : CSVDataRow := mkRow "ALL" "x" "y" "99999999" "0.0" "0.0" "" ""

/-- C4 counterexample: `c4zrow` references an unmapped account number, yet
classification neither raises any error nor produces a candidate — the
zero-amount pre-filter runs before the account lookup, so the row is
silently skipped, contradicting "never silently skipped". -/
theorem c4_counterexample :
    lookupAcct m0 c4zrow.accountNumber = none ∧
    csvDataRowToTransactionAsync m0 st0 c4zrow = .ok (none, st0, []) :=
  ⟨rfl, rfl⟩

/-! ## Helpers for the category-override claim -/

theorem createCategoryAsync_ok (st : ActualState) (name : String) (c : ICategory)
    (st2 : ActualState) (h : createCategoryAsync st name = .ok (c, st2)) :
    c.name = name ∧ st2.categories = st.categories ++ [c] := by
  unfold createCategoryAsync at h
  repeat' split at h
  all_goals first
    | exact Except.noConfusion h
    | (injection h with h1; injection h1 with ha hb; cases ha; cases hb;
       exact ⟨rfl, rfl⟩)

theorem find?_append_of_none {α : Type} (p : α → Bool) (l1 l2 : List α)
    (h : l1.find? p = none) : (l1 ++ l2).find? p = l2.find? p := by
  induction l1 with
  | nil => rfl
  | cons a as ih =>
    cases hpa : p a with
    | true => rw [List.find?_cons_of_pos _ hpa] at h; exact absurd h (by simp)
    | false =>
      rw [List.find?_cons_of_neg _ (by simp [hpa])] at h
      rw [List.cons_append, List.find?_cons_of_neg _ (by simp [hpa])]
      exact ih h

/-- C5.  A VISA row whose category list is exactly `Liquor Store, Restricted`
resolves its category under the override name `Groceries`: the single name
used for both the cache lookup and any creation is `Groceries`
(`visaCategoryName`, the embedding of the `category_name` variable), every
category created while classifying the row is named `Groceries` (so no
`Liquor Store, Restricted` category is ever looked up or created), and the
candidate's category id is the id of the first `Groceries`-named category of
the final state. -/
theorem c5_liquor_store_override (mapping : List (String × Nat)) (st : ActualState)
    (row : CSVDataRow) (t : ITransaction) (st2 : ActualState) (log : List String)
    (htype : row.transactionType = "VISA")
    (hcat : row.categoryList = "Liquor Store, Restricted")
    (h : csvDataRowToTransactionAsync mapping st row = .ok (some t, st2, log)) :
    visaCategoryName row.categoryList = "Groceries" ∧
    log.all (fun n => n == "Groceries") = true ∧
    t.category = (st2.categories.find? (fun c => c.name == "Groceries")).bind
      (fun c => c.id) := by
  have hg : visaCategoryName row.categoryList = "Groceries" := by rw [hcat]; rfl
  refine ⟨hg, ?_⟩
  unfold csvDataRowToTransactionAsync at h
  dsimp only at h
  by_cases hz : amountToInteger (jsParseFloat row.debitAmount) = some 0 ∧
      amountToInteger (jsParseFloat row.creditAmount) = some 0
  · rw [if_pos hz] at h; exact absurd h (by simp)
  · rw [if_neg hz] at h
    cases hacc : lookupAcct mapping row.accountNumber with
    | none => rw [hacc] at h; exact Except.noConfusion h
    | some a =>
      rw [hacc, htype] at h
      simp at h
      unfold parseTransactionTypeVisaAsync at h
      rw [hg] at h
      dsimp only at h
      split at h
      next e heq => exact Except.noConfusion h
      next payee_name hpayee =>
        split at h
        next e heq => exact Except.noConfusion h
        next category st3 created hcat2 =>
          injection h with h1
          injection h1 with ha hb
          injection hb with hst hlog
          injection ha with hX
          cases hX
          cases hst
          cases hlog
          split at hcat2
          next c heq2 =>
            injection hcat2 with h2
            injection h2 with hcg hrest
            injection hrest with hst3 hcr
            cases hcg
            cases hst3
            cases hcr
            refine ⟨by decide, ?_⟩
            rw [heq2]
            rfl
          next heq2 =>
            split at hcat2
            next hne =>
              split at hcat2
              next e heq3 => exact Except.noConfusion hcat2
              next c st4 heq3 =>
                injection hcat2 with h2
                injection h2 with hcg hrest
                injection hrest with hst3 hcr
                cases hcg
                cases hst3
                cases hcr
                obtain ⟨hname, hcats⟩ := createCategoryAsync_ok _ _ _ _ heq3
                refine ⟨by decide, ?_⟩
                rw [hcats, find?_append_of_none _ _ _ heq2,
                    List.find?_cons_of_pos _ (by simp [hname])]
                rfl
            next hne =>
              exact absurd (by decide : ¬("Groceries" : String) = "") hne

/-- Concrete VISA row with the overridden category list. -/
def c5row : CSVDataRow :=
  mkRow "VISA" "PURCHASE" "foo(Ref.1)" "11111111" "10.00" "0.0" "Dans"
    "Liquor Store, Restricted"

/-- The candidate produced for `c5row` from `st0`. -/
def c5tx : ITransaction :=
  { account := 1, date := JsDate.invalid, amount := some (-1000),
    payee_name := some "Dans", imported_payee := some "foo(Ref.1)",
    category := some 100, notes := some "foo(Ref.1)|Dans|Liquor Store, Restricted",
    imported_id := some "1", cleared := some true }

/-- The ledger state after classifying `c5row` from `st0`: a `Groceries`
category was created. -/
def c5st2 : ActualState :=
  { st0 with
    categories := st0.categories ++
      [({ id := some 100, name := "Groceries", group_id := 5 } : ICategory)],
    nextId := 101 }

/-- C5 witness: the theorem applied to `c5row`, whose classification creates
the `Groceries` category. -/
theorem c5_liquor_store_override_witness :
    visaCategoryName c5row.categoryList = "Groceries" ∧
    (["Groceries"] : List String).all (fun n => n == "Groceries") = true ∧
    c5tx.category = (c5st2.categories.find? (fun c => c.name == "Groceries")).bind
      (fun c => c.id) :=
  c5_liquor_store_override m0 st0 c5row c5tx c5st2 ["Groceries"] rfl rfl (by rfl)

/-- The CARD row of the spec's C6 example: the Cloudflare narrative with an
empty merchant name. -/
def c6row : CSVDataRow :=
  mkRow "VISA" "PURCHASE"
    "VISA-CLOUDFLARE HTTPSWWW.CLOUUSFRGN AMT-11.1111111#123455(Ref.0123456789)"
    "11111111" "11.84" "0.0" "" ""

/-- C6.  On the Cloudflare narrative with an empty merchant name, the
produced candidate's payee name is exactly `Cloudflare` (narrative
extraction plus title-casing) and its imported reference id is exactly
`0123456789`. -/
theorem c6_cloudflare_extraction :
    (producedTx (csvDataRowToTransactionAsync m0 st0 c6row)).map
        (fun u => u.payee_name) = some (some "Cloudflare") ∧
    (producedTx (csvDataRowToTransactionAsync m0 st0 c6row)).map
        (fun u => u.imported_id) = some (some "0123456789") :=
  ⟨rfl, rfl⟩

/-- C7.  `createCategoryAsync`, on an initialised ledger with both group ids
cached, assigns a category created from the name `Interest` to the income
category group and a category created from any other name to the default
(expense) group. -/
theorem c7_interest_income_group (st : ActualState) (name : String) (d i : Nat)
    (hinit : st.isInitialised = true)
    (hd : st.defaultCategoryGroupId = some d)
    (hi : st.incomeCategoryGroupId = some i) :
    (createCategoryAsync st name).toOption.map (fun p => p.1.group_id)
      = some (if name = "Interest" then i else d) := by
  unfold createCategoryAsync
  rw [hinit, hd, hi]
  simp [Except.toOption]

/-- C7 witness: the theorem applied to `st0` for the name `Interest` (income
group `9`) and the name `Takeaway` (default group `5`). -/
theorem c7_interest_income_group_witness :
    (createCategoryAsync st0 "Interest").toOption.map (fun p => p.1.group_id)
        = some 9 ∧
    (createCategoryAsync st0 "Takeaway").toOption.map (fun p => p.1.group_id)
        = some 5 := by
  constructor
  · have h := c7_interest_income_group st0 "Interest" 5 9 rfl rfl rfl
    simpa using h
  · have h := c7_interest_income_group st0 "Takeaway" 5 9 rfl rfl rfl
    simpa using h

/-- C9 (amended).  On an input string that does not match the date format,
the Date Normalizer does not fail: date-fns `parse` returns the JS Invalid
Date value, `setHours` keeps it invalid, and `extractDate` returns that
value (which then flows into the candidate's date field). -/
theorem c9_invalid_date_is_value (s : String)
    (h : parseBankDate s.data = none) : extractDate s = JsDate.invalid := by
  unfold extractDate
  rw [h]

/-- C9 witness: the amended theorem applied to the non-matching input
`hello`. -/
theorem c9_invalid_date_is_value_witness :
    parseBankDate "hello".data = none ∧ extractDate "hello" = JsDate.invalid :=
  ⟨by decide, c9_invalid_date_is_value "hello" (by decide)⟩

/-- C9 counterexample: the claim says a non-matching input makes the Date
Normalizer "fail with a FormatError (it does not return a value)", but
`extractDate` is a total function — modelling date-fns `parse`, which never
throws — and on the non-matching input `hello` it returns the Invalid Date
value. -/
theorem c9_counterexample : extractDate "hello" = JsDate.invalid := rfl

/-- C8.  Every produced candidate's notes field is exactly the pipe-join of
the row's long description, merchant name and category list: the notes are
built once on the base candidate and no classification branch of any
transaction type modifies them. -/
theorem c8_notes_verbatim (mapping : List (String × Nat)) (st : ActualState)
    (row : CSVDataRow) (t : ITransaction) (st2 : ActualState) (log : List String)
    (h : csvDataRowToTransactionAsync mapping st row = .ok (some t, st2, log)) :
    t.notes = some (row.longDescription ++ "|" ++ row.merchantName ++ "|" ++
      row.categoryList) := by
  unfold csvDataRowToTransactionAsync at h
  dsimp only at h
  split at h
  · exact absurd h (by simp)
  · split at h
    next heq => exact Except.noConfusion h
    next a heq =>
      split at h
      next hAll =>
        obtain ⟨hn, -⟩ := frame_all _ _ _ _ _ _ _ h
        rw [hn]; rfl
      next hAll =>
        split at h
        next hW =>
          obtain ⟨hn, -⟩ := frame_wdls _ _ _ (liftPure_ok _ _ _ _ _ h)
          rw [hn]; rfl
        next hW =>
          split at h
          next hD =>
            obtain ⟨hn, -⟩ := frame_deposits _ _ _ (liftPure_ok _ _ _ _ _ h)
            rw [hn]; rfl
          next hD =>
            split at h
            next hB =>
              obtain ⟨hn, -⟩ := frame_bpay _ _ _ (liftPure_ok _ _ _ _ _ h)
              rw [hn]; rfl
            next hB =>
              split at h
              next hV =>
                obtain ⟨hn, -⟩ := frame_visa _ _ _ _ _ _ h
                rw [hn]; rfl
              next hV => exact Except.noConfusion h

/-- The candidate produced for the catch-all `ALL` fixture row used by the
C8 witness. -/
def c8tx : ITransaction :=
  { account := 1, date := JsDate.invalid, amount := some (-100),
    imported_payee := some "Hello", notes := some "Hello||",
    cleared := some false }

/-- C8 witness: the theorem applied to a concrete uncleared catch-all row. -/
theorem c8_notes_verbatim_witness :
    c8tx.notes = some ("Hello" ++ "|" ++ "" ++ "|" ++ "") :=
  c8_notes_verbatim m0 st0 (mkRow "ALL" "" "Hello" "11111111" "1" "0.0" "" "")
    c8tx st0 [] (by rfl)

/-- C10.  Every produced candidate's imported_payee field is the row's long
description verbatim: it is set on the base candidate and no classification
branch of any transaction type overwrites it. -/
theorem c10_imported_payee_verbatim (mapping : List (String × Nat))
    (st : ActualState) (row : CSVDataRow) (t : ITransaction) (st2 : ActualState)
    (log : List String)
    (h : csvDataRowToTransactionAsync mapping st row = .ok (some t, st2, log)) :
    t.imported_payee = some row.longDescription := by
  unfold csvDataRowToTransactionAsync at h
  dsimp only at h
  split at h
  · exact absurd h (by simp)
  · split at h
    next heq => exact Except.noConfusion h
    next a heq =>
      split at h
      next hAll =>
        obtain ⟨-, hp⟩ := frame_all _ _ _ _ _ _ _ h
        rw [hp]; rfl
      next hAll =>
        split at h
        next hW =>
          obtain ⟨-, hp⟩ := frame_wdls _ _ _ (liftPure_ok _ _ _ _ _ h)
          rw [hp]; rfl
        next hW =>
          split at h
          next hD =>
            obtain ⟨-, hp⟩ := frame_deposits _ _ _ (liftPure_ok _ _ _ _ _ h)
            rw [hp]; rfl
          next hD =>
            split at h
            next hB =>
              obtain ⟨-, hp⟩ := frame_bpay _ _ _ (liftPure_ok _ _ _ _ _ h)
              rw [hp]; rfl
            next hB =>
              split at h
              next hV =>
                obtain ⟨-, hp⟩ := frame_visa _ _ _ _ _ _ h
                rw [hp]; rfl
              next hV => exact Except.noConfusion h

/-- The BPAY fixture row used by the C10 witness. -/
def c10row : CSVDataRow :=
  mkRow "BPAY" "BPAY"
    "Internet BPay to Energy Co - Biller Code 12345 - Receipt No 987654321"
    "11111111" "50.00" "0.0" "" ""

/-- The candidate produced for `c10row`. -/
def c10tx : ITransaction :=
  { account := 1, date := JsDate.invalid, amount := some (-5000),
    payee_name := some "Energy Co",
    imported_payee :=
      some "Internet BPay to Energy Co - Biller Code 12345 - Receipt No 987654321",
    notes :=
      some "Internet BPay to Energy Co - Biller Code 12345 - Receipt No 987654321||",
    imported_id := some "12345-987654321", cleared := some true }

/-- C10 witness: the theorem applied to a concrete BPAY row. -/
theorem c10_imported_payee_verbatim_witness :
    c10tx.imported_payee = some c10row.longDescription :=
  c10_imported_payee_verbatim m0 st0 c10row c10tx st0 [] (by rfl)
